/- Verification of the meshtastic-irc bridge against its specification.
   The Rust sources under src/ are shallowly embedded as Lean definitions:
   pure packet construction and translation become Lean functions, the
   stateful handlers become explicit state-passing step functions, and the
   effectful library boundaries (serial I/O, the MQTT session, protobuf
   wire decoding) appear as parameters or as already-decoded values, which
   is exactly the granularity at which the program itself observes them. -/
import Mathlib

/- ## Byte-level text codec

   The program calls Rust's `text.as_bytes()` and `std::str::from_utf8`
   on packet payloads.  We model bytes as `Nat` values (< 256 for real
   packets) and implement the UTF-8 codec those functions perform. -/

/-- UTF-8 encoding of a single unicode scalar value (`char` in Rust). -/
def utf8EncodeChar (c : Nat) : List Nat :=
  if c < 0x80 then [c]
  else if c < 0x800 then
    [0xC0 + c / 64, 0x80 + c % 64]
  else if c < 0x10000 then
    [0xE0 + c / 4096, 0x80 + c / 64 % 64, 0x80 + c % 64]
  else
    [0xF0 + c / 262144, 0x80 + c / 4096 % 64, 0x80 + c / 64 % 64, 0x80 + c % 64]

/-- Model of Rust `str::as_bytes`: the UTF-8 byte sequence of a string. -/
def as_bytes (s : String) : List Nat :=
  (s.data.map (fun c => utf8EncodeChar c.toNat)).flatten

/-- Is `b` a UTF-8 continuation byte (`10xxxxxx`)? -/
def isCont (b : Nat) : Bool := 0x80 ≤ b && b < 0xC0

/-- UTF-8 decoding of a byte list into unicode scalar values, rejecting
    malformed sequences, overlong encodings and surrogates, as Rust's
    `std::str::from_utf8` does. -/
def utf8DecodeAux : List Nat → Option (List Char)
  | [] => some []
  | b0 :: rest =>
    if b0 < 0x80 then
      (utf8DecodeAux rest).map (fun cs => Char.ofNat b0 :: cs)
    else if b0 < 0xC2 then none
    else if b0 < 0xE0 then
      match rest with
      | b1 :: rest2 =>
        if isCont b1 then
          (utf8DecodeAux rest2).map
            (fun cs => Char.ofNat ((b0 - 0xC0) * 64 + (b1 - 0x80)) :: cs)
        else none
      | [] => none
    else if b0 < 0xF0 then
      match rest with
      | b1 :: b2 :: rest3 =>
        let cp := (b0 - 0xE0) * 4096 + (b1 - 0x80) * 64 + (b2 - 0x80)
        if isCont b1 && isCont b2 && decide (0x800 ≤ cp) &&
            !(decide (0xD800 ≤ cp) && decide (cp ≤ 0xDFFF)) then
          (utf8DecodeAux rest3).map (fun cs => Char.ofNat cp :: cs)
        else none
      | _ => none
    else if b0 < 0xF5 then
      match rest with
      | b1 :: b2 :: b3 :: rest4 =>
        let cp := (b0 - 0xF0) * 262144 + (b1 - 0x80) * 4096 +
                  (b2 - 0x80) * 64 + (b3 - 0x80)
        if isCont b1 && isCont b2 && isCont b3 &&
            decide (0x10000 ≤ cp) && decide (cp ≤ 0x10FFFF) then
          (utf8DecodeAux rest4).map (fun cs => Char.ofNat cp :: cs)
        else none
      | _ => none
    else none

/-- Model of Rust `std::str::from_utf8`: decode bytes to a string, or
    fail on invalid UTF-8. -/
def from_utf8 (bytes : List Nat) : Option String :=
  (utf8DecodeAux bytes).map String.mk

/-- One lowercase hexadecimal digit character. -/
def hexDigit (n : Nat) : Char :=
  if n < 10 then Char.ofNat (48 + n) else Char.ofNat (87 + n)

/-- Model of Rust `format!("{:08x}", n)` on a `u32`: node ids are 32-bit,
    so the rendering is always exactly eight lowercase hex digits. -/
def hex8 (n : Nat) : String :=
  String.mk ((List.range 8).map (fun i => hexDigit (n / 16 ^ (7 - i) % 16)))

/-- Does the character list `l` start with the list `p`? -/
def startsWithList : List Char → List Char → Bool
  | _, [] => true
  | [], _ :: _ => false
  | c :: cs, p :: ps => c == p && startsWithList cs ps

/-- Model of Rust `str::starts_with` with a string pattern. -/
def starts_with (s pat : String) : Bool := startsWithList s.data pat.data

/-- Does the character list `hay` contain `needle` as a contiguous run? -/
def containsList : List Char → List Char → Bool
  | [], needle => needle.isEmpty
  | c :: cs, needle => startsWithList (c :: cs) needle || containsList cs needle

/-- Model of Rust `str::contains` with a string pattern. -/
def str_contains (hay needle : String) : Bool := containsList hay.data needle.data

/- ## Packet data model (meshtastic protobufs, as used by this program)

   Only the fields the program reads or writes are modelled; the remaining
   protobuf fields are never touched by any code path under src/.
   `u32` fields become `Nat` (no arithmetic is performed on them, so no
   wraparound can occur); prost enum fields are stored as their `i32`
   wire value, exactly as in the generated Rust structs. -/

/-- Wire values of the `PortNum` enum constants the program uses. -/
def portNumTextMessageApp : Int := 1

/-- Wire value of `PortNum::RoutingApp`. -/
def portNumRoutingApp : Int := 5

/-- Wire value of `Priority::Default`. -/
def priorityDefault : Int := 64

/-- Wire value of `Priority::Ack`. -/
def priorityAck : Int := 120

/-- Model of `meshtastic::protobufs::Data` (the fields this program touches; the
    others stay at `Default::default()` and are never read). -/
structure Data where
  portnum : Int
  payload : List Nat
  want_response : Bool
  request_id : Nat
  deriving Repr, DecidableEq

/-- Prost's generated getter `Data::portnum()` returns
    `PortNum::try_from(self.portnum).unwrap_or(PortNum::default())`, and the
    default is `UnknownApp = 0`; hence comparing the getter with
    `PortNum::TextMessageApp` is the same as comparing the stored `i32`
    with `1`. -/
def Data.portnumIsText (d : Data) : Bool := d.portnum == portNumTextMessageApp

/-- Model of `mesh_packet::PayloadVariant`. -/
inductive MPPayloadVariant where
  | Decoded (d : Data)
  | Encrypted (bytes : List Nat)
  deriving Repr, DecidableEq

/-- Model of `meshtastic::protobufs::MeshPacket` (the fields this program touches). -/
structure MeshPacket where
  «to» : Nat
  «from» : Nat
  channel : Nat
  id : Nat
  priority : Int
  payload_variant : Option MPPayloadVariant
  want_ack : Bool
  deriving Repr, DecidableEq

/-- Model of `meshtastic::protobufs::User` (only `short_name` is read). -/
structure User where
  short_name : String
  deriving Repr, DecidableEq

/-- Model of `meshtastic::protobufs::NodeInfo` (only `num` and `user` are read). -/
structure NodeInfo where
  num : Nat
  user : Option User
  deriving Repr, DecidableEq

/-- Model of `from_radio::PayloadVariant`, as distinguished by
    `handle_meshtastic_packet`: `Packet`, `NodeInfo` and `MyInfo` have
    dedicated arms; every other constructor falls into the
    `Some(other)` arm, modelled by `OtherVariant`. -/
inductive FRPayloadVariant where
  | Packet (p : MeshPacket)
  | NodeInfo (n : NodeInfo)
  | MyInfo (my_node_num : Nat)
  | OtherVariant
  deriving Repr, DecidableEq

/-- Model of `meshtastic::protobufs::FromRadio` (only the payload variant is read). -/
structure FromRadio where
  payload_variant : Option FRPayloadVariant
  deriving Repr, DecidableEq

/-- Model of `meshtastic::protobufs::ServiceEnvelope`. -/
structure ServiceEnvelope where
  packet : Option MeshPacket
  channel_id : String
  gateway_id : String
  deriving Repr, DecidableEq

/-- Model of `crate::irc_handler::IrcMessage`. -/
structure IrcMessage where
  sender : String
  content : String
  deriving Repr, DecidableEq

/- ## Node directory

   Both handlers hold a `HashMap<u32, String>` mapping node ids to short
   names.  We model it as an association list where an insert shadows
   earlier bindings (lookup returns the most recent one), which realizes
   the map's last-write-wins semantics. -/

/-- Model of `HashMap::insert` (new binding shadows any earlier one). -/
def mapInsert (m : List (Nat × String)) (k : Nat) (v : String) :
    List (Nat × String) := (k, v) :: m

/-- Model of `HashMap::get` (most recent binding wins). -/
def mapGet (m : List (Nat × String)) (k : Nat) : Option String :=
  (m.find? (fun p => p.1 == k)).map Prod.snd

/- ## Serial transport (src/meshtastic_handler.rs)

   The handler's run loop alternates between decoded radio packets and
   queued IRC messages.  Its per-packet behaviour is the pair
   (`handle_meshtastic_packet`, `process_mesh_packet`); the sends it
   performs (to the IRC queue and to the radio) are collected as a list
   of effects, in the order the code issues them. -/

/-- The mutable state of `MeshtasticHandler` that the packet path touches:
    the configured channel and the node-name directory. -/
structure MHState where
  channel : Nat
  node_names : List (Nat × String)
  deriving Repr, DecidableEq

/-- An observable send performed by the serial handler while processing
    one packet: either a string pushed to the `to_irc` queue, or a packet
    written to the radio (the ACK path). -/
inductive SerialEffect where
  | ToIrc (msg : String)
  | RadioSend (p : MeshPacket)
  deriving Repr, DecidableEq

/-- Model of `MeshtasticHandler::send_ack` (lines 233-271): the packet it writes to
    the radio (the write itself is the surrounding I/O). -/
def send_ack (packet_id to_node : Nat) : MeshPacket :=
  { «to» := to_node
    «from» := 0
    channel := 0
    id := 0
    priority := priorityAck
    payload_variant := some (.Decoded
      { portnum := portNumRoutingApp
        payload := []
        want_response := false
        request_id := packet_id })
    want_ack := false }

/-- Model of `MeshtasticHandler::process_mesh_packet` (lines 149-192): effects
    performed for one channel-matching mesh packet.  The handler state is
    read (node-name lookup) but never written here. -/
def process_mesh_packet (s : MHState) (packet : MeshPacket) :
    List SerialEffect :=
  let wants_ack := packet.want_ack
  let packet_id := packet.id
  let from_node := packet.«from»
  match packet.payload_variant with
  | some (.Decoded data) =>
    if data.portnumIsText then
      if data.payload.length > 0 then
        match from_utf8 data.payload with
        | some text =>
          let sender := (mapGet s.node_names packet.«from»).getD
            (hex8 packet.«from»)
          let message := "[mesh-" ++ sender ++ "]: " ++ text
          SerialEffect.ToIrc message ::
            (if wants_ack && packet_id != 0 then
              [SerialEffect.RadioSend (send_ack packet_id from_node)]
            else [])
        | none => []
      else []
    else []
  | _ => []

/-- Model of `MeshtasticHandler::handle_meshtastic_packet` (lines 107-147): state
    update and effects for one `FromRadio` message. -/
def handle_meshtastic_packet (s : MHState) (from_radio : FromRadio) :
    MHState × List SerialEffect :=
  match from_radio.payload_variant with
  | some (.Packet mesh_packet) =>
    if mesh_packet.channel == s.channel then
      (s, process_mesh_packet s mesh_packet)
    else
      (s, [])
  | some (.NodeInfo node_info) =>
    let node_id := node_info.num
    match node_info.user with
    | some user =>
      let short_name := user.short_name
      if !(short_name == "") then
        ({ s with node_names := mapInsert s.node_names node_id short_name }, [])
      else (s, [])
    | none => (s, [])
  | some (.MyInfo _) => (s, [])
  | some .OtherVariant => (s, [])
  | none => (s, [])

/-- Model of `MeshtasticHandler::send_to_meshtastic` (lines 194-231): the packet
    built for one IRC message and written to the radio. -/
def send_to_meshtastic (channel : Nat) (message : IrcMessage) : MeshPacket :=
  let text := "[IRC-" ++ message.sender ++ "] " ++ message.content
  { «to» := 0xffffffff
    «from» := 0
    channel := channel
    id := 0
    priority := priorityDefault
    payload_variant := some (.Decoded
      { portnum := portNumTextMessageApp
        payload := as_bytes text
        want_response := false
        request_id := 0 })
    want_ack := false }

/- ## Broker transport (src/mqtt_handler.rs) -/

/-- The `MqttHandler` state read by the packet path: subscribed topic,
    configured channel and the node-name directory. -/
structure MqttState where
  topic : String
  channel : Nat
  node_names : List (Nat × String)
  deriving Repr, DecidableEq

/-- An incoming `rumqttc` event as distinguished by `handle_mqtt_event`:
    a publish (carrying the topic and, at the program's observation
    boundary, the result of prost-decoding its payload as a
    `ServiceEnvelope`), or one of the other event kinds the code merely
    logs. -/
inductive MqttEvent where
  | Publish (topic : String) (envelope : Option ServiceEnvelope)
  | ConnAck
  | SubAck
  | Disconnect
  | OtherEvent
  deriving Repr, DecidableEq

/-- Model of `MqttHandler::process_mesh_packet` (lines 183-221): the string
    forwarded to IRC for one packet received via MQTT, if any.  Note:
    unlike the serial path, no comparison with the configured channel is
    made anywhere on this receive path. -/
def mqtt_process_mesh_packet (node_names : List (Nat × String))
    (packet : MeshPacket) : Option String :=
  match packet.payload_variant with
  | some (.Decoded data) =>
    if data.portnumIsText then
      if data.payload.length > 0 then
        match from_utf8 data.payload with
        | some text =>
          if !(starts_with text "[IRC-") then
            let sender := (mapGet node_names packet.«from»).getD
              (hex8 packet.«from»)
            some ("[mesh-" ++ sender ++ "]: " ++ text)
          else none
        | none => none
      else none
    else none
  | _ => none

/-- Model of `MqttHandler::handle_mqtt_event` (lines 143-181): state update and
    messages forwarded to IRC for one MQTT event. -/
def handle_mqtt_event (s : MqttState) (event : MqttEvent) :
    MqttState × List String :=
  match event with
  | .Publish topic envelope =>
    if topic == s.topic then
      match envelope with
      | some service_envelope =>
        match service_envelope.packet with
        | some packet =>
          (s, (mqtt_process_mesh_packet s.node_names packet).toList)
        | none => (s, [])
      | none => (s, [])
    else (s, [])
  | .ConnAck => (s, [])
  | .SubAck => (s, [])
  | .Disconnect => (s, [])
  | .OtherEvent => (s, [])

/-- The event loop of `MqttHandler::run` folded over a list of incoming
    events, starting from a given state and collecting every string
    forwarded to IRC. -/
def mqtt_run : MqttState → List MqttEvent → MqttState × List String
  | s, [] => (s, [])
  | s, e :: es =>
    let (s', out) := handle_mqtt_event s e
    let (s'', outs) := mqtt_run s' es
    (s'', out ++ outs)

/-- Model of `MqttHandler::send_to_mqtt` (lines 100-141): the mesh packet built
    for one IRC message. -/
def mqtt_outbound_packet (channel : Nat) (message : IrcMessage) : MeshPacket :=
  let text := "[IRC-" ++ message.sender ++ "] " ++ message.content
  { «to» := 0xffffffff
    «from» := 0
    channel := channel
    id := 0
    priority := priorityDefault
    payload_variant := some (.Decoded
      { portnum := portNumTextMessageApp
        payload := as_bytes text
        want_response := false
        request_id := 0 })
    want_ack := false }

/-- Model of `MqttHandler::send_to_mqtt`, the service envelope actually published
    (wrapping the packet with the fixed labels). -/
def send_to_mqtt (channel : Nat) (message : IrcMessage) : ServiceEnvelope :=
  { packet := some (mqtt_outbound_packet channel message)
    channel_id := "LongFast"
    gateway_id := "irc-bridge" }

/- ## Chat relay (src/irc_handler.rs) -/

/-- The source of an IRC message (`irc::proto::Prefix`): a nickname
    (with user/host parts, unread by this program) or a server name. -/
inductive IrcSource where
  | Nickname (nick user host : String)
  | ServerName (name : String)
  deriving Repr, DecidableEq

/-- The IRC commands `handle_irc_message` distinguishes; everything else
    falls into the ignored default arm, modelled by `OtherCommand`. -/
inductive IrcCommand where
  | PRIVMSG (target content : String)
  | PING (server1 : String) (server2 : Option String)
  | JOIN (chanlist : String)
  | NOTICE (target content : String)
  | EndOfMotd
  | OtherCommand
  deriving Repr, DecidableEq

/-- An inbound `irc::proto::Message` (the parts this program reads). -/
structure IrcProtoMessage where
  source : Option IrcSource
  command : IrcCommand
  deriving Repr, DecidableEq

/-- Model of `IrcHandler::handle_irc_message` (lines 87-151), restricted to its one
    observable data flow: the `IrcMessage` pushed onto the
    `to_meshtastic` queue, if any.  (The PING/JOIN/NOTICE/default arms
    only log or send protocol-level pongs and never forward anything.) -/
def handle_irc_message (channel current_nickname : String)
    (message : IrcProtoMessage) : Option IrcMessage :=
  match message.command with
  | .PRIVMSG target content =>
    if target == channel then
      match message.source with
      | some (.Nickname nick _ _) =>
        if nick == current_nickname then none
        else some { sender := nick, content := content }
      | _ => none
    else none
  | _ => none

/- ## Device discovery (src/serial_detector.rs) -/

/-- Model of `serialport::SerialPortType` as observed by this program: a USB port
    with its descriptor fields, or anything else (PCI, Bluetooth
    port-type, unknown), which every classifier maps to `false`. -/
inductive SerialPortType where
  | UsbPort (vid pid : Nat)
      (manufacturer product serial_number : Option String)
  | NonUsbPort
  deriving Repr, DecidableEq

/-- Model of `serialport::SerialPortInfo`. -/
structure SerialPortInfo where
  port_name : String
  port_type : SerialPortType
  deriving Repr, DecidableEq

/-- Model of `MESHTASTIC_VENDOR_IDS` (lines 7-16). -/
def MESHTASTIC_VENDOR_IDS : List (Nat × Nat) :=
  [(0x239a, 0x4000), (0x239a, 0x8029), (0x303a, 0x1001), (0x10c4, 0xea60),
   (0x0403, 0x6001), (0x0403, 0x6015), (0x1a86, 0x55d4), (0x2e8a, 0x000a)]

/-- Model of `MESHTASTIC_DESCRIPTIONS` (lines 19-32). -/
def MESHTASTIC_DESCRIPTIONS : List String :=
  ["RAK4631", "LILYGO", "T-Beam", "T-Echo", "Heltec", "Nano G1",
   "Station G1", "CP210", "CH910", "FT232", "Meshtastic", "WisBlock"]

/-- Model of `is_likely_meshtastic` (lines 103-144). -/
def is_likely_meshtastic (port_info : SerialPortInfo) : Bool :=
  match port_info.port_type with
  | .UsbPort vid pid manufacturer product serial_number =>
    MESHTASTIC_VENDOR_IDS.any (fun vp => vid == vp.1 && pid == vp.2) ||
    (match manufacturer with
     | some m =>
       let manufacturer_lower := m.toLower
       str_contains manufacturer_lower "meshtastic" ||
       str_contains manufacturer_lower "rak" ||
       str_contains manufacturer_lower "lilygo" ||
       str_contains manufacturer_lower "heltec"
     | none => false) ||
    (match product with
     | some p => MESHTASTIC_DESCRIPTIONS.any (fun keyword => str_contains p keyword)
     | none => false) ||
    (match serial_number with
     | some s => starts_with s "M" || str_contains s "mesh"
     | none => false)
  | .NonUsbPort => false

/-- Model of `is_possible_meshtastic` (lines 146-178). -/
def is_possible_meshtastic (port_info : SerialPortInfo) : Bool :=
  match port_info.port_type with
  | .UsbPort vid pid _ product _ =>
    let common_chips : List (Nat × Nat) :=
      [(0x10c4, 0xea60), (0x1a86, 0x7523), (0x1a86, 0x55d4),
       (0x0403, 0x6001), (0x0403, 0x6015)]
    common_chips.any (fun vp => vid == vp.1 && pid == vp.2) ||
    (match product with
     | some p =>
       let product_lower := p.toLower
       str_contains product_lower "esp32" ||
       str_contains product_lower "usb" ||
       str_contains product_lower "uart"
     | none => false)
  | .NonUsbPort => false

/-- The classification loop of `detect_meshtastic_port` (lines 47-70):
    walk the enumerated ports in order, skip any whose name mentions
    "Bluetooth", and split the rest into the `meshtastic_ports`
    (likely) and `possible_ports` name lists. -/
def classifyPorts : List SerialPortInfo → List String × List String
  | [] => ([], [])
  | port_info :: rest =>
    let (l, p) := classifyPorts rest
    if str_contains port_info.port_name "Bluetooth" then (l, p)
    else if is_likely_meshtastic port_info then (port_info.port_name :: l, p)
    else if is_possible_meshtastic port_info then (l, port_info.port_name :: p)
    else (l, p)

/-- The probing loops of `detect_meshtastic_port` (lines 73-86): return
    the first port in the list for which the (effectful, here abstracted)
    `verify_meshtastic_port` probe reports `true`.  `verify` stands for
    that probe; in the source it returns `Ok(bool)` on every path, so a
    boolean oracle is a faithful boundary. -/
def firstVerified (verify : String → Bool) : List String → Option String
  | [] => none
  | port :: rest =>
    if verify port then some port else firstVerified verify rest

/-- Model of `detect_meshtastic_port` (lines 34-101), parameterized by the probe
    oracle and the enumerated port list. -/
def detect_meshtastic_port (verify : String → Bool)
    (ports : List SerialPortInfo) : Except String String :=
  if ports.isEmpty then .error "No serial ports found"
  else
    let (meshtastic_ports, possible_ports) := classifyPorts ports
    match firstVerified verify (meshtastic_ports ++ possible_ports) with
    | some port => .ok port
    | none => .error "No Meshtastic devices found"

/- ## Orchestrator (src/bridge.rs) -/

/-- Which of the two spawned tasks ended first (the two arms of the
    `tokio::select!` in `Bridge::run`, lines 87-94).  A task ends both
    when its run loop exits and when its initialization fails, so this
    covers failed startups as well. -/
inductive BridgeSide where
  | IrcSide
  | MeshSide
  deriving Repr, DecidableEq

/-- The tail of `Bridge::run` (lines 87-96): given which side ended
    first, the cause logged by the matching select arm and the value the
    function returns. -/
def bridge_run_outcome (first_ended : BridgeSide) :
    String × Except String Unit :=
  (match first_ended with
   | .IrcSide => "IRC handler terminated"
   | .MeshSide => "Meshtastic handler terminated",
   Except.error "Bridge terminated unexpectedly")

/- ## Configuration (src/config.rs, src/main.rs) -/

/-- Model of `crate::config::IrcConfig`. -/
structure IrcConfig where
  server : String
  port : Nat
  channel : String
  nickname : String
  username : Option String
  realname : Option String
  password : Option String
  use_tls : Bool
  deriving Repr, DecidableEq

/-- Modelled from the spec: the broker configuration block
    `broker?: {address, port, topic, username?, password?, clientId?}`
    (§6).  Its Rust declaration (`config::MqttConfig`) is referenced by
    src/main.rs and src/mqtt_handler.rs but the declaration itself is
    absent from the src/ snapshot of config.rs. -/
structure MqttConfig where
  broker_address : String
  port : Nat
  topic : String
  username : Option String
  password : Option String
  client_id : Option String
  deriving Repr, DecidableEq

/-- Model of `crate::config::MeshtasticConfig`, together with the `mqtt` field
    that src/main.rs line 149 assigns (see `MqttConfig` above). -/
structure MeshtasticConfig where
  serial_port : Option String
  channel : Nat
  mqtt : Option MqttConfig
  deriving Repr, DecidableEq

/-- Model of `crate::config::Config`. -/
structure Config where
  irc : IrcConfig
  meshtastic : MeshtasticConfig
  deriving Repr, DecidableEq

/-- Model of `Config::default` (src/config.rs lines 29-48). -/
def Config.defaultConfig : Config :=
  { irc :=
    { server := "irc.libera.chat"
      port := 6697
      channel := "#meshtastic"
      nickname := "meshtastic-bridge"
      username := none
      realname := none
      password := none
      use_tls := true }
    meshtastic :=
    { serial_port := none
      channel := 0
      mqtt := none } }

/-- The command-line flags of `Args` that override configuration fields
    (src/main.rs lines 16-60, minus `config` and `list_ports`). -/
structure Args where
  irc_server : Option String
  irc_port : Option Nat
  irc_channel : Option String
  irc_nick : Option String
  irc_tls : Option Bool
  serial_port : Option String
  meshtastic_channel : Option Nat
  mqtt_broker : Option String
  mqtt_port : Option Nat
  mqtt_topic : Option String
  mqtt_username : Option String
  mqtt_password : Option String
  deriving Repr, DecidableEq

/-- The config-loading step of `main` (src/main.rs lines 100-116):
    `file_exists` is `args.config.exists()` and `parsed` is the outcome
    of `serde_json::from_str` on the file's contents.  A parse failure is
    logged and falls back to the defaults; it does not abort. -/
def load_config (file_exists : Bool) (parsed : Option Config) : Config :=
  if file_exists then
    match parsed with
    | some c => c
    | none => Config.defaultConfig
  else Config.defaultConfig

/-- The override-and-resolve steps of `main` (src/main.rs lines 118-168)
    applied to an already-loaded config: individual flag overrides, MQTT
    config construction when `--mqtt-broker` is given, serial-port
    auto-detection (abstracted as `autodetect`, the outcome of
    `detect_meshtastic_port`) when neither serial nor MQTT is
    configured, and the channel override. -/
def resolve_config (args : Args) (autodetect : Except String String)
    (config0 : Config) : Except String Config :=
  let config1 := { config0 with irc :=
    { config0.irc with
      server := args.irc_server.getD config0.irc.server
      port := args.irc_port.getD config0.irc.port
      channel := args.irc_channel.getD config0.irc.channel
      nickname := args.irc_nick.getD config0.irc.nickname
      use_tls := args.irc_tls.getD config0.irc.use_tls } }
  let config2 := match args.serial_port with
    | some port =>
      { config1 with meshtastic := { config1.meshtastic with serial_port := some port } }
    | none => config1
  let config3 := match args.mqtt_broker with
    | some broker =>
      let mqtt_config : MqttConfig :=
        { broker_address := broker
          port := args.mqtt_port.getD 1883
          topic := args.mqtt_topic.getD "meshtastic/2/e/#"
          username := args.mqtt_username
          password := args.mqtt_password
          client_id := none }
      { config2 with meshtastic := { config2.meshtastic with mqtt := some mqtt_config } }
    | none => config2
  match config3.meshtastic.serial_port, config3.meshtastic.mqtt with
  | none, none =>
    match autodetect with
    | .ok detected_port =>
      let config4 := { config3 with meshtastic :=
        { config3.meshtastic with serial_port := some detected_port } }
      .ok { config4 with meshtastic :=
        { config4.meshtastic with
          channel := args.meshtastic_channel.getD config4.meshtastic.channel } }
    | .error e => .error ("Failed to auto-detect serial port: " ++ e)
  | _, _ =>
    .ok { config3 with meshtastic :=
      { config3.meshtastic with
        channel := args.meshtastic_channel.getD config3.meshtastic.channel } }

example : hex8 0xabcd = "0000abcd" := by decide
example : from_utf8 (as_bytes "[IRC-alice] hi") = some "[IRC-alice] hi" := by decide
example : starts_with "[IRC-x] y" "[IRC-" = true := by decide
example : starts_with "[mesh-a]: hi" "[IRC-" = false := by decide
example : str_contains "/dev/tty.Bluetooth-Incoming-Port" "Bluetooth" = true := by decide

/- ## Theorems -/

/-- C1 counterexample: the claim asserts channel isolation for the broker
    variant as well, but `MqttHandler::process_mesh_packet` never compares
    `packet.channel` with the configured channel.  Concretely, with
    configured channel 0, a text packet arriving on channel 1 via the
    subscribed topic is still translated and forwarded to IRC. -/
theorem c1_broker_counterexample :
    (handle_mqtt_event
      { topic := "msh/2/e/LongFast/x", channel := 0, node_names := [] }
      (.Publish "msh/2/e/LongFast/x" (some
        { packet := some
            { «to» := 0xffffffff, «from» := 0xabcd, channel := 1, id := 0,
              priority := priorityDefault,
              payload_variant := some (.Decoded
                { portnum := portNumTextMessageApp, payload := as_bytes "hi",
                  want_response := false, request_id := 0 }),
              want_ack := false }
          channel_id := "LongFast", gateway_id := "gw" }))).2
      = ["[mesh-0000abcd]: hi"] := by decide

/-- C1 (amended): channel isolation holds in the serial variant —
    `handle_meshtastic_packet` drops every mesh packet whose channel
    differs from the configured channel, forwarding nothing and leaving
    the state untouched.  (The broker variant applies no such check; see
    the counterexample.) -/
theorem c1_serial_channel_isolation (s : MHState) (from_radio : FromRadio)
    (mesh_packet : MeshPacket)
    (hpkt : from_radio.payload_variant = some (.Packet mesh_packet))
    (hch : mesh_packet.channel ≠ s.channel) :
    handle_meshtastic_packet s from_radio = (s, []) := by
  simp [handle_meshtastic_packet, hpkt, hch]

/-- C1 witness: the serial isolation theorem applied at a concrete
    packet on channel 2 against configured channel 0. -/
theorem c1_serial_channel_isolation_witness :
    handle_meshtastic_packet { channel := 0, node_names := [] }
      { payload_variant := some (.Packet
          { «to» := 0, «from» := 7, channel := 2, id := 1,
            priority := priorityDefault,
            payload_variant := some (.Decoded
              { portnum := portNumTextMessageApp, payload := as_bytes "hi",
                want_response := false, request_id := 0 }),
            want_ack := true }) }
      = ({ channel := 0, node_names := [] }, []) :=
  c1_serial_channel_isolation _ _ _ rfl (by decide)

/-- C2 counterexample: the claim asserts the `"[IRC-"` loop-prevention
    rejection in both variants, but the serial variant's
    `process_mesh_packet` performs no such check: a channel-matching text
    packet whose text is `"[IRC-alice] hi"` is translated and forwarded
    to IRC. -/
theorem c2_serial_counterexample :
    (handle_meshtastic_packet { channel := 0, node_names := [] }
      { payload_variant := some (.Packet
          { «to» := 0xffffffff, «from» := 10, channel := 0, id := 0,
            priority := priorityDefault,
            payload_variant := some (.Decoded
              { portnum := portNumTextMessageApp,
                payload := as_bytes "[IRC-alice] hi",
                want_response := false, request_id := 0 }),
            want_ack := false }) }).2
      = [SerialEffect.ToIrc "[mesh-0000000a]: [IRC-alice] hi"] := by decide

/-- C2 (amended): the loop-prevention rejection is applied by the broker
    variant — whenever the decoded payload text of a packet received via
    MQTT begins with `"[IRC-"`, `MqttHandler::process_mesh_packet` yields
    no output.  (The serial variant omits the check; see the
    counterexample.) -/
theorem c2_broker_loop_prevention (node_names : List (Nat × String))
    (packet : MeshPacket) (data : Data) (text : String)
    (hpv : packet.payload_variant = some (.Decoded data))
    (hdec : from_utf8 data.payload = some text)
    (hpre : starts_with text "[IRC-" = true) :
    mqtt_process_mesh_packet node_names packet = none := by
  simp only [mqtt_process_mesh_packet, hpv]
  split
  · split
    · rw [hdec]
      simp [hpre]
    · rfl
  · rfl

/-- C2 witness: the broker loop-prevention theorem applied at a concrete
    echo packet whose payload is the UTF-8 bytes of `"[IRC-x] y"`. -/
theorem c2_broker_loop_prevention_witness :
    mqtt_process_mesh_packet []
      { «to» := 0xffffffff, «from» := 3, channel := 0, id := 0,
        priority := priorityDefault,
        payload_variant := some (.Decoded
          { portnum := portNumTextMessageApp,
            payload := as_bytes "[IRC-x] y",
            want_response := false, request_id := 0 }),
        want_ack := false } = none :=
  c2_broker_loop_prevention [] _ _ "[IRC-x] y" rfl (by decide) (by decide)

/-- C3: for every `IrcMessage {sender, content}` and configured channel,
    the outbound mesh packet built by either transport variant is the
    same packet: a text-message-typed decoded payload whose bytes are the
    UTF-8 encoding of `"[IRC-{sender}] {content}"`, destination the
    broadcast address `0xffffffff`, the configured channel, sender node
    id 0, packet id 0, and no acknowledgement requested.  The broker
    variant wraps exactly this packet in its service envelope. -/
theorem c3_encode_postcondition (channel : Nat) (message : IrcMessage) :
    send_to_meshtastic channel message = mqtt_outbound_packet channel message ∧
    (send_to_mqtt channel message).packet
      = some (mqtt_outbound_packet channel message) ∧
    (send_to_meshtastic channel message).payload_variant
      = some (.Decoded
          { portnum := portNumTextMessageApp
            payload := as_bytes ("[IRC-" ++ message.sender ++ "] " ++ message.content)
            want_response := false
            request_id := 0 }) ∧
    (send_to_meshtastic channel message).«to» = 0xffffffff ∧
    (send_to_meshtastic channel message).channel = channel ∧
    (send_to_meshtastic channel message).«from» = 0 ∧
    (send_to_meshtastic channel message).id = 0 ∧
    (send_to_meshtastic channel message).want_ack = false :=
  ⟨rfl, rfl, rfl, rfl, rfl, rfl, rfl, rfl⟩

/-- C4 counterexample: the claim's "if and only if" fails for a decoded,
    channel-matching, text-type packet with an empty payload: with
    `wantAck = true` and id 5 ≠ 0 the code sends no acknowledgement,
    because the ACK send is nested inside the `payload.len() > 0` (and
    UTF-8 validity) guards. -/
theorem c4_counterexample :
    (handle_meshtastic_packet { channel := 0, node_names := [] }
      { payload_variant := some (.Packet
          { «to» := 0, «from» := 7, channel := 0, id := 5,
            priority := priorityDefault,
            payload_variant := some (.Decoded
              { portnum := portNumTextMessageApp, payload := [],
                want_response := false, request_id := 0 }),
            want_ack := true }) }).2 = [] := by decide

/-- C4 (amended): for every decoded, channel-matching, text-type packet
    whose payload is non-empty and decodes as valid UTF-8, the serial
    variant sends an acknowledgement if and only if `wantAck = true` and
    the packet id ≠ 0; every radio packet it sends while handling such a
    packet is exactly `send_ack`, which is routing-typed, addressed to
    the original sender node, on channel 0, references the original
    packet id as `request_id`, and does not itself request an
    acknowledgement. -/
theorem c4_ack_policy (s : MHState) (from_radio : FromRadio)
    (mp : MeshPacket) (data : Data) (text : String)
    (hpkt : from_radio.payload_variant = some (.Packet mp))
    (hch : mp.channel = s.channel)
    (hpv : mp.payload_variant = some (.Decoded data))
    (hpt : data.portnumIsText = true)
    (hne : data.payload ≠ [])
    (hdec : from_utf8 data.payload = some text) :
    (SerialEffect.RadioSend (send_ack mp.id mp.«from»)
        ∈ (handle_meshtastic_packet s from_radio).2
      ↔ (mp.want_ack = true ∧ mp.id ≠ 0)) ∧
    (∀ q, SerialEffect.RadioSend q ∈ (handle_meshtastic_packet s from_radio).2
      → q = send_ack mp.id mp.«from») ∧
    (send_ack mp.id mp.«from»).«to» = mp.«from» ∧
    (send_ack mp.id mp.«from»).channel = 0 ∧
    (send_ack mp.id mp.«from»).payload_variant
      = some (.Decoded
          { portnum := portNumRoutingApp, payload := []
            want_response := false, request_id := mp.id }) ∧
    (send_ack mp.id mp.«from»).want_ack = false := by
  have hlen : data.payload.length > 0 := List.length_pos.mpr hne
  have heff : (handle_meshtastic_packet s from_radio).2
      = SerialEffect.ToIrc ("[mesh-" ++
          ((mapGet s.node_names mp.«from»).getD (hex8 mp.«from»)) ++ "]: " ++ text) ::
        (if mp.want_ack && mp.id != 0 then
          [SerialEffect.RadioSend (send_ack mp.id mp.«from»)]
        else []) := by
    simp only [handle_meshtastic_packet, hpkt, hch, beq_self_eq_true, if_true]
    simp only [process_mesh_packet, hpv, hpt, if_true, hlen, if_pos, hdec]
  rw [heff]
  refine ⟨?_, ?_, rfl, rfl, rfl, rfl⟩
  · constructor
    · intro hmem
      rcases List.mem_cons.mp hmem with h | h
      · exact absurd h (by simp)
      · by_cases hc : mp.want_ack && mp.id != 0
        · exact ⟨(Bool.and_eq_true _ _ ▸ hc).1, by
            have := (Bool.and_eq_true _ _ ▸ hc).2
            simpa using this⟩
        · rw [if_neg hc] at h
          exact absurd h (List.not_mem_nil _)
    · rintro ⟨hw, hid⟩
      have hc : (mp.want_ack && mp.id != 0) = true := by
        rw [hw]
        simpa using hid
      rw [if_pos hc]
      exact List.mem_cons.mpr (Or.inr (List.mem_singleton.mpr rfl))
  · intro q hmem
    rcases List.mem_cons.mp hmem with h | h
    · exact absurd h (by simp)
    · by_cases hc : mp.want_ack && mp.id != 0
      · rw [if_pos hc] at h
        exact SerialEffect.RadioSend.inj (List.mem_singleton.mp h)
      · rw [if_neg hc] at h
        exact absurd h (List.not_mem_nil _)

/-- C4 witness: the ack-policy theorem applied at a concrete packet with
    `wantAck = true` and id 5, concluding that the acknowledgement packet
    is among the effects. -/
theorem c4_ack_policy_witness :
    SerialEffect.RadioSend (send_ack 5 7)
      ∈ (handle_meshtastic_packet { channel := 0, node_names := [] }
          { payload_variant := some (.Packet
              { «to» := 0, «from» := 7, channel := 0, id := 5,
                priority := priorityDefault,
                payload_variant := some (.Decoded
                  { portnum := portNumTextMessageApp,
                    payload := as_bytes "hi",
                    want_response := false, request_id := 0 }),
                want_ack := true }) }).2 :=
  (c4_ack_policy { channel := 0, node_names := [] } _ _ _ "hi"
    rfl rfl rfl (by decide) (by decide) (by decide)).1.mpr ⟨rfl, by decide⟩

/-- C5: sender name resolution in the serial variant.  For a decoded,
    channel-matching text packet whose sender node id is absent from the
    node directory, the forwarded text renders the sender as the
    zero-padded 8-hex-digit node id; once a NodeInfo packet for that id
    with a non-empty short name has been handled, the directory maps the
    id to that short name (so the channel stays unchanged and a matching
    text packet from that id now renders the sender as the short name). -/
theorem c5_sender_name_resolution (s : MHState) (mp : MeshPacket)
    (data : Data) (text : String) (node_id : Nat) (name : String)
    (hpv : mp.payload_variant = some (.Decoded data))
    (hpt : data.portnumIsText = true)
    (hne : data.payload ≠ [])
    (hdec : from_utf8 data.payload = some text)
    (hch : mp.channel = s.channel)
    (hfrom : mp.«from» = node_id) :
    (mapGet s.node_names node_id = none →
      ∃ rest,
        (handle_meshtastic_packet s
          { payload_variant := some (.Packet mp) }).2
          = SerialEffect.ToIrc ("[mesh-" ++ hex8 node_id ++ "]: " ++ text) :: rest) ∧
    (name ≠ "" →
      (handle_meshtastic_packet s
          { payload_variant := some (.NodeInfo
              { num := node_id, user := some { short_name := name } }) }).1
        = { s with node_names := mapInsert s.node_names node_id name } ∧
      mapGet (mapInsert s.node_names node_id name) node_id = some name ∧
      ∃ rest,
        (handle_meshtastic_packet
          { s with node_names := mapInsert s.node_names node_id name }
          { payload_variant := some (.Packet mp) }).2
          = SerialEffect.ToIrc ("[mesh-" ++ name ++ "]: " ++ text) :: rest) := by
  have hlen : data.payload.length > 0 := List.length_pos.mpr hne
  have heff : ∀ st : MHState, mp.channel = st.channel →
      (handle_meshtastic_packet st { payload_variant := some (.Packet mp) }).2
        = SerialEffect.ToIrc ("[mesh-" ++
            ((mapGet st.node_names mp.«from»).getD (hex8 mp.«from»)) ++ "]: " ++ text) ::
          (if mp.want_ack && mp.id != 0 then
            [SerialEffect.RadioSend (send_ack mp.id mp.«from»)]
          else []) := by
    intro st hst
    simp only [handle_meshtastic_packet, hst, beq_self_eq_true, if_true]
    simp only [process_mesh_packet, hpv, hpt, if_true, hlen, if_pos, hdec]
  have hm : mapGet (mapInsert s.node_names node_id name) node_id = some name := by
    simp [mapGet, mapInsert]
  constructor
  · intro habs
    refine ⟨if mp.want_ack && mp.id != 0 then
        [SerialEffect.RadioSend (send_ack mp.id mp.«from»)] else [], ?_⟩
    rw [heff s hch, hfrom, habs]
    rfl
  · intro hname
    have hb : (!(name == "")) = true := by
      simp only [Bool.not_eq_true', beq_eq_false_iff_ne, ne_eq]
      exact hname
    refine ⟨?_, hm, ?_⟩
    · simp only [handle_meshtastic_packet, hb, if_true]
    · refine ⟨if mp.want_ack && mp.id != 0 then
          [SerialEffect.RadioSend (send_ack mp.id mp.«from»)] else [], ?_⟩
      rw [heff { s with node_names := mapInsert s.node_names node_id name } hch,
        hfrom, hm]
      rfl

/-- C5 witness: the resolution theorem applied with an empty directory,
    node id `0x12345678`, short name `"N1"` and text `"hi"`: before the
    NodeInfo packet the sender renders as `"12345678"`, afterwards as
    `"N1"`. -/
theorem c5_sender_name_resolution_witness :
    (∃ rest,
      (handle_meshtastic_packet { channel := 0, node_names := [] }
        { payload_variant := some (.Packet
            { «to» := 0, «from» := 0x12345678, channel := 0, id := 0,
              priority := priorityDefault,
              payload_variant := some (.Decoded
                { portnum := portNumTextMessageApp, payload := as_bytes "hi",
                  want_response := false, request_id := 0 }),
              want_ack := false }) }).2
        = SerialEffect.ToIrc "[mesh-12345678]: hi" :: rest) ∧
    (∃ rest,
      (handle_meshtastic_packet
        { channel := 0, node_names := mapInsert [] 0x12345678 "N1" }
        { payload_variant := some (.Packet
            { «to» := 0, «from» := 0x12345678, channel := 0, id := 0,
              priority := priorityDefault,
              payload_variant := some (.Decoded
                { portnum := portNumTextMessageApp, payload := as_bytes "hi",
                  want_response := false, request_id := 0 }),
              want_ack := false }) }).2
        = SerialEffect.ToIrc "[mesh-N1]: hi" :: rest) := by
  have h := c5_sender_name_resolution { channel := 0, node_names := [] }
    { «to» := 0, «from» := 0x12345678, channel := 0, id := 0,
      priority := priorityDefault,
      payload_variant := some (.Decoded
        { portnum := portNumTextMessageApp, payload := as_bytes "hi",
          want_response := false, request_id := 0 }),
      want_ack := false }
    { portnum := portNumTextMessageApp, payload := as_bytes "hi",
      want_response := false, request_id := 0 }
    "hi" 0x12345678 "N1"
    rfl (by decide) (by decide) (by decide) rfl rfl
  refine ⟨?_, ?_⟩
  · have := h.1 (by decide)
    simpa using this
  · have := (h.2 (by decide)).2.2
    simpa using this

/-- C6: the chat-side receive filter.  `handle_irc_message` forwards an
    item to the outbound-to-mesh queue exactly when the event is a
    PRIVMSG whose target is the configured channel, whose source is a
    nickname, and whose nickname differs from the bridge's current
    nickname; the forwarded item is `{sender := nick, content}`.  In
    particular a message from the bridge's own nickname is never
    forwarded. -/
theorem c6_self_message_filter (channel current_nickname : String)
    (message : IrcProtoMessage) (out : IrcMessage) :
    handle_irc_message channel current_nickname message = some out ↔
    (message.command = .PRIVMSG channel out.content ∧
     (∃ user host, message.source = some (.Nickname out.sender user host)) ∧
     out.sender ≠ current_nickname) := by
  obtain ⟨source, command⟩ := message
  constructor
  · intro h
    cases command with
    | PRIVMSG target content =>
      simp only [handle_irc_message] at h
      by_cases ht : target == channel
      · rw [if_pos ht] at h
        match source with
        | some (.Nickname nick user host) =>
          have h' : (if nick == current_nickname then none
              else some { sender := nick, content := content : IrcMessage })
              = some out := h
          by_cases hn : nick == current_nickname
          · rw [if_pos hn] at h'
            exact absurd h' (by simp)
          · rw [if_neg hn] at h'
            have hout : out = { sender := nick, content := content } :=
              (Option.some.inj h').symm
            subst hout
            refine ⟨?_, ⟨user, host, rfl⟩, ?_⟩
            · rw [show target = channel from by simpa using ht]
            · simpa using hn
        | some (.ServerName n) => exact absurd h (by simp)
        | none => exact absurd h (by simp)
      · rw [if_neg ht] at h
        exact absurd h (by simp)
    | PING s1 s2 => exact absurd h (by simp [handle_irc_message])
    | JOIN c => exact absurd h (by simp [handle_irc_message])
    | NOTICE t c => exact absurd h (by simp [handle_irc_message])
    | EndOfMotd => exact absurd h (by simp [handle_irc_message])
    | OtherCommand => exact absurd h (by simp [handle_irc_message])
  · rintro ⟨hcmd, ⟨user, host, hsrc⟩, hnick⟩
    simp only at hcmd hsrc
    subst hcmd
    subst hsrc
    simp only [handle_irc_message, beq_self_eq_true, if_true]
    rw [if_neg (by simpa using hnick)]

/-- The likely list built by the classification loop is exactly the
    names of the non-Bluetooth ports satisfying `is_likely_meshtastic`,
    in enumeration order. -/
lemma classifyPorts_fst_eq (ports : List SerialPortInfo) :
    (classifyPorts ports).1
      = (ports.filter (fun pi =>
          !str_contains pi.port_name "Bluetooth" && is_likely_meshtastic pi)).map
        SerialPortInfo.port_name := by
  induction ports with
  | nil => rfl
  | cons pi rest ih =>
    cases hcp : classifyPorts rest with
    | mk l p =>
      rw [hcp] at ih
      by_cases hb : str_contains pi.port_name "Bluetooth"
      · simp [classifyPorts, hcp, hb, List.filter_cons, ih]
      · by_cases hl : is_likely_meshtastic pi
        · simp [classifyPorts, hcp, hb, hl, List.filter_cons, ih]
        · by_cases hp : is_possible_meshtastic pi
          · simp [classifyPorts, hcp, hb, hl, hp, List.filter_cons, ih]
          · simp [classifyPorts, hcp, hb, hl, hp, List.filter_cons, ih]

/-- The possible list built by the classification loop is exactly the
    names of the non-Bluetooth ports that are not likely but satisfy
    `is_possible_meshtastic`, in enumeration order. -/
lemma classifyPorts_snd_eq (ports : List SerialPortInfo) :
    (classifyPorts ports).2
      = (ports.filter (fun pi =>
          !str_contains pi.port_name "Bluetooth" && !is_likely_meshtastic pi &&
          is_possible_meshtastic pi)).map
        SerialPortInfo.port_name := by
  induction ports with
  | nil => rfl
  | cons pi rest ih =>
    cases hcp : classifyPorts rest with
    | mk l p =>
      rw [hcp] at ih
      by_cases hb : str_contains pi.port_name "Bluetooth"
      · simp [classifyPorts, hcp, hb, List.filter_cons, ih]
      · by_cases hl : is_likely_meshtastic pi
        · simp [classifyPorts, hcp, hb, hl, List.filter_cons, ih]
        · by_cases hp : is_possible_meshtastic pi
          · simp [classifyPorts, hcp, hb, hl, hp, List.filter_cons, ih]
          · simp [classifyPorts, hcp, hb, hl, hp, List.filter_cons, ih]

/-- A successful linear probe returns a verified element of the list. -/
lemma firstVerified_some_imp (verify : String → Bool) :
    ∀ (l : List String) (path : String),
      firstVerified verify l = some path → verify path = true ∧ path ∈ l := by
  intro l
  induction l with
  | nil =>
    intro path h
    exact absurd h (by simp [firstVerified])
  | cons q rest ih =>
    intro path h
    by_cases hq : verify q
    · simp only [firstVerified, if_pos hq] at h
      injection h with h
      subst h
      exact ⟨hq, List.mem_cons_self _ _⟩
    · simp only [firstVerified, if_neg hq] at h
      obtain ⟨hv, hm⟩ := ih path h
      exact ⟨hv, List.mem_cons_of_mem _ hm⟩

/-- Unfolding lemma: `detect_meshtastic_port` is the linear probe over the likely list
    followed by the possible list, with the error message depending only
    on whether any port was enumerated at all. -/
lemma detect_eq (verify : String → Bool) (ports : List SerialPortInfo) :
    detect_meshtastic_port verify ports =
      match firstVerified verify
          ((classifyPorts ports).1 ++ (classifyPorts ports).2) with
      | some port => .ok port
      | none => .error (if ports.isEmpty then "No serial ports found"
          else "No Meshtastic devices found") := by
  by_cases hemp : ports.isEmpty
  · have hnil : ports = [] := List.isEmpty_iff.mp hemp
    subst hnil
    rfl
  · cases hcp : classifyPorts ports with
    | mk l p =>
      simp only [detect_meshtastic_port, hemp, if_false, hcp, Bool.false_eq_true]

/-- C7: device discovery.  The candidate sequence actually probed is the
    likely names followed by the possible names (each exactly the
    enumeration-ordered names of non-Bluetooth ports of that
    classification, so no endpoint naming a Bluetooth adapter is ever
    probed); discovery succeeds with `path` exactly when the linear probe
    over that sequence first succeeds at `path`, and any returned path is
    a verified member of the candidate sequence. -/
theorem c7_device_discovery (verify : String → Bool)
    (ports : List SerialPortInfo) :
    ((classifyPorts ports).1
      = (ports.filter (fun pi =>
          !str_contains pi.port_name "Bluetooth" && is_likely_meshtastic pi)).map
        SerialPortInfo.port_name) ∧
    ((classifyPorts ports).2
      = (ports.filter (fun pi =>
          !str_contains pi.port_name "Bluetooth" && !is_likely_meshtastic pi &&
          is_possible_meshtastic pi)).map
        SerialPortInfo.port_name) ∧
    (∀ path, detect_meshtastic_port verify ports = .ok path ↔
      firstVerified verify
        ((classifyPorts ports).1 ++ (classifyPorts ports).2) = some path) ∧
    (∀ path, detect_meshtastic_port verify ports = .ok path →
      verify path = true ∧
      path ∈ (classifyPorts ports).1 ++ (classifyPorts ports).2) := by
  have hiff : ∀ path, detect_meshtastic_port verify ports = .ok path ↔
      firstVerified verify
        ((classifyPorts ports).1 ++ (classifyPorts ports).2) = some path := by
    intro path
    rw [detect_eq]
    cases hfv : firstVerified verify
        ((classifyPorts ports).1 ++ (classifyPorts ports).2) with
    | none => simp
    | some q => simp
  refine ⟨classifyPorts_fst_eq ports, classifyPorts_snd_eq ports, hiff, ?_⟩
  intro path hok
  exact firstVerified_some_imp verify _ path ((hiff path).mp hok)

/-- C7 witness: the discovery theorem applied to a concrete enumeration
    holding one Bluetooth endpoint and one RAK4631 USB endpoint, with a
    probe oracle that verifies only `/dev/ttyUSB0`: since discovery
    returns `/dev/ttyUSB0`, that path is verified and a candidate. -/
theorem c7_device_discovery_witness :
    (fun s => s == "/dev/ttyUSB0") "/dev/ttyUSB0" = true ∧
    "/dev/ttyUSB0" ∈
      (classifyPorts
        [{ port_name := "/dev/tty.Bluetooth-Incoming-Port", port_type := .NonUsbPort },
         { port_name := "/dev/ttyUSB0",
           port_type := .UsbPort 0x239a 0x4000 none none none }]).1 ++
      (classifyPorts
        [{ port_name := "/dev/tty.Bluetooth-Incoming-Port", port_type := .NonUsbPort },
         { port_name := "/dev/ttyUSB0",
           port_type := .UsbPort 0x239a 0x4000 none none none }]).2 :=
  (c7_device_discovery (fun s => s == "/dev/ttyUSB0")
    [{ port_name := "/dev/tty.Bluetooth-Incoming-Port", port_type := .NonUsbPort },
     { port_name := "/dev/ttyUSB0",
       port_type := .UsbPort 0x239a 0x4000 none none none }]).2.2.2
    "/dev/ttyUSB0" rfl

/-- C8: whichever side's task ends first, `Bridge::run` falls through the
    `tokio::select!` to its final line and returns the error
    "Bridge terminated unexpectedly"; by constructor disjointness of
    `Except` it therefore never returns success. -/
theorem c8_orchestrator_termination (first_ended : BridgeSide) :
    (bridge_run_outcome first_ended).2
      = Except.error "Bridge terminated unexpectedly" := by
  cases first_ended <;> rfl

/-- C9: in the broker variant no code path writes the node-name
    directory: every MQTT event leaves the handler state (including
    `node_names`) unchanged, so a run started with the empty directory
    keeps it empty for any event sequence, and every message it forwards
    from the mesh renders its sender as the zero-padded 8-hex-digit node
    id (never a short name). -/
theorem c9_mqtt_directory_stays_empty :
    (∀ (s : MqttState) (e : MqttEvent), (handle_mqtt_event s e).1 = s) ∧
    (∀ (topic : String) (channel : Nat) (events : List MqttEvent),
      (mqtt_run { topic := topic, channel := channel, node_names := [] }
        events).1
        = { topic := topic, channel := channel, node_names := [] }) ∧
    (∀ (packet : MeshPacket) (out : String),
      mqtt_process_mesh_packet [] packet = some out →
      ∃ text, out = "[mesh-" ++ hex8 packet.«from» ++ "]: " ++ text) := by
  have hstep : ∀ (s : MqttState) (e : MqttEvent), (handle_mqtt_event s e).1 = s := by
    intro s e
    cases e with
    | Publish topic envelope =>
      simp only [handle_mqtt_event]
      by_cases ht : topic == s.topic
      · rw [if_pos ht]
        match envelope with
        | some se =>
          obtain ⟨pkt, cid, gid⟩ := se
          cases pkt <;> rfl
        | none => rfl
      · rw [if_neg ht]
    | ConnAck => rfl
    | SubAck => rfl
    | Disconnect => rfl
    | OtherEvent => rfl
  refine ⟨hstep, ?_, ?_⟩
  · intro topic channel events
    induction events with
    | nil => rfl
    | cons e es ih =>
      simp only [mqtt_run]
      rw [hstep { topic := topic, channel := channel, node_names := [] } e]
      rw [ih]
  · intro packet out h
    simp only [mqtt_process_mesh_packet] at h
    match hpv : packet.payload_variant with
    | some (.Decoded data) =>
      rw [hpv] at h
      have h2 : (if data.portnumIsText then
          (if data.payload.length > 0 then
            (match from_utf8 data.payload with
             | some text =>
               if !(starts_with text "[IRC-") then
                 some ("[mesh-" ++
                   ((mapGet [] packet.«from»).getD (hex8 packet.«from»)) ++
                   "]: " ++ text)
               else none
             | none => none)
          else none)
        else none) = some out := h
      by_cases hpt : data.portnumIsText
      · rw [if_pos hpt] at h2
        by_cases hlen : data.payload.length > 0
        · rw [if_pos hlen] at h2
          match hdec : from_utf8 data.payload with
          | some text =>
            rw [hdec] at h2
            by_cases hpre : starts_with text "[IRC-"
            · simp [hpre] at h2
            · simp only [hpre, Bool.not_false, if_true] at h2
              refine ⟨text, ?_⟩
              have hg : (mapGet [] packet.«from»).getD (hex8 packet.«from»)
                  = hex8 packet.«from» := rfl
              rw [hg] at h2
              exact (Option.some.inj h2).symm
          | none => rw [hdec] at h2; exact absurd h2 (by simp)
        · rw [if_neg hlen] at h2; exact absurd h2 (by simp)
      · rw [if_neg hpt] at h2; exact absurd h2 (by simp)
    | some (.Encrypted bytes) => rw [hpv] at h; exact absurd h (by simp)
    | none => rw [hpv] at h; exact absurd h (by simp)

/-- C9 witness: the theorem's last clause applied at a concrete packet
    from node `0xabcd` forwarded with the empty directory: the rendered
    sender is the hex id form `0000abcd`. -/
theorem c9_mqtt_directory_stays_empty_witness :
    ∃ text, "[mesh-0000abcd]: hi"
      = "[mesh-" ++ hex8 0xabcd ++ "]: " ++ text :=
  c9_mqtt_directory_stays_empty.2.2
    { «to» := 0xffffffff, «from» := 0xabcd, channel := 0, id := 0,
      priority := priorityDefault,
      payload_variant := some (.Decoded
        { portnum := portNumTextMessageApp, payload := as_bytes "hi",
          want_response := false, request_id := 0 }),
      want_ack := false }
    "[mesh-0000abcd]: hi" (by decide)

/-- C10: when the configuration file exists but fails to parse, `main`
    logs the error and continues with `Config::default` — the resolution
    is a total function of the parse outcome, identical to the
    missing-file path, the defaults are the built-in IRC
    server/channel/nickname with mesh channel 0, and command-line
    overrides are still applied on top of those defaults (shown for a
    run that pins the serial port and mesh channel on the command line:
    resolution succeeds, with every unoverridden IRC field at its
    default). -/
theorem c10_config_parse_fallback (args : Args)
    (autodetect : Except String String) :
    load_config true none = Config.defaultConfig ∧
    resolve_config args autodetect (load_config true none)
      = resolve_config args autodetect Config.defaultConfig ∧
    Config.defaultConfig.irc.server = "irc.libera.chat" ∧
    Config.defaultConfig.irc.channel = "#meshtastic" ∧
    Config.defaultConfig.irc.nickname = "meshtastic-bridge" ∧
    Config.defaultConfig.meshtastic.channel = 0 ∧
    (∀ port ch, args.serial_port = some port →
      args.meshtastic_channel = some ch →
      ∃ c, resolve_config args autodetect (load_config true none) = .ok c ∧
        c.meshtastic.serial_port = some port ∧
        c.meshtastic.channel = ch ∧
        c.irc.server = args.irc_server.getD "irc.libera.chat" ∧
        c.irc.channel = args.irc_channel.getD "#meshtastic" ∧
        c.irc.nickname = args.irc_nick.getD "meshtastic-bridge") := by
  refine ⟨rfl, rfl, rfl, rfl, rfl, rfl, ?_⟩
  intro port ch hsp hch
  cases hmb : args.mqtt_broker with
  | none =>
    simp only [load_config, resolve_config, hsp, hch, hmb]
    exact ⟨_, rfl, rfl, rfl, rfl, rfl, rfl⟩
  | some broker =>
    simp only [load_config, resolve_config, hsp, hch, hmb]
    exact ⟨_, rfl, rfl, rfl, rfl, rfl, rfl⟩

/-- C10 witness: the fallback theorem applied with `--serial-port
    /dev/ttyUSB0 --meshtastic-channel 2` and no other flags: resolution
    after a parse failure succeeds with the overridden serial port and
    channel and the default IRC identity. -/
theorem c10_config_parse_fallback_witness :
    ∃ c, resolve_config
        { irc_server := none, irc_port := none, irc_channel := none,
          irc_nick := none, irc_tls := none,
          serial_port := some "/dev/ttyUSB0", meshtastic_channel := some 2,
          mqtt_broker := none, mqtt_port := none, mqtt_topic := none,
          mqtt_username := none, mqtt_password := none }
        (.error "no ports") (load_config true none) = .ok c ∧
      c.meshtastic.serial_port = some "/dev/ttyUSB0" ∧
      c.meshtastic.channel = 2 ∧
      c.irc.server = (Option.getD none "irc.libera.chat") ∧
      c.irc.channel = (Option.getD none "#meshtastic") ∧
      c.irc.nickname = (Option.getD none "meshtastic-bridge") :=
  (c10_config_parse_fallback
    { irc_server := none, irc_port := none, irc_channel := none,
      irc_nick := none, irc_tls := none,
      serial_port := some "/dev/ttyUSB0", meshtastic_channel := some 2,
      mqtt_broker := none, mqtt_port := none, mqtt_topic := none,
      mqtt_username := none, mqtt_password := none }
    (.error "no ports")).2.2.2.2.2.2 "/dev/ttyUSB0" 2 rfl rfl
